import Mathlib

/-!
Shallow embedding of `scripts/count_visitors.py` (visitor accumulator).

Modelling conventions:
* Calendar dates are integers (day numbers): Python `date` values map
  monotonically and injectively to `Int` (e.g. via `toordinal`), and
  `timedelta(days=1)` becomes `+ 1`.  Comparison of ISO date strings agrees
  with the numeric order, so string keys/comparisons in the Python code are
  modelled by `Int` keys/comparisons.
* A Python `dict` keyed by date is an association list `List (Int × Int)`
  with insertion-order semantics: assignment replaces an existing key in
  place, otherwise appends (`insertH`).
* `fetch_sa_visitors_for_date` performs network I/O; within one run of
  `cmd_update` its responses are modelled by an oracle `fetch : Int → Int`
  giving the value the Python function returns for each requested date
  (negative = the error sentinel).  The HTTP/JSON layer itself is modelled
  separately by `FetchOutcome`.
* `datetime.now().isoformat()` (the `last_updated` stamp) is an opaque
  input `now : String`.
* Python `round(x, 1)` on the exact rational mean is modelled by `round1`
  (round half away from the floor at one decimal; the claims proved below
  never hit a tie, so the float/banker-rounding details are immaterial).
-/

namespace CountVisitors

/-- `INITIAL_CUMULATIVE = 23869` from the configuration block. -/
def INITIAL_CUMULATIVE : Int := 23869

/-- Outcome of one HTTP request in `fetch_sa_visitors_for_date`: either a
decoded JSON body whose `visitors` field may be absent, or a transport /
decode error (`HTTPError`, `URLError`, `JSONDecodeError`). -/
inductive FetchOutcome where
  | ok (visitors : Option Int)
  | error
deriving DecidableEq

/-- `fetch_sa_visitors_for_date`: returns `data.get('visitors', 0)` on a
decoded body, `-1` on error ("-1 = error, distinct from 0 visitors"). -/
def fetch_sa_visitors_for_date (o : FetchOutcome) : Int :=
  match o with
  | .ok visitors => visitors.getD 0
  | .error => -1

/-- Python dict assignment `h[k] = v`: replace the existing binding in
place, otherwise append at the end (insertion order preserved). -/
def insertH (h : List (Int × Int)) (k v : Int) : List (Int × Int) :=
  match h with
  | [] => [(k, v)]
  | (k', v') :: rest =>
      if k' = k then (k, v) :: rest else (k', v') :: insertH rest k v

/-- Python dict lookup `h.get(k)`. -/
def lookupH (h : List (Int × Int)) (k : Int) : Option Int :=
  match h with
  | [] => none
  | (k', v) :: rest => if k' = k then some v else lookupH rest k

/-- The persisted JSON document as `cmd_update` reads it back
(`prev = load_data()`): every field may be absent. -/
structure PrevData where
  count : Option Int := none
  cumulative : Option Int := none
  today_visitors : Option Int := none
  last_counted_date : Option Int := none
  daily_history : List (Int × Int) := []
deriving DecidableEq

/-- The full record `cmd_update` writes with `save_data(data)`. -/
structure SavedData where
  count : Int
  cumulative : Int
  today_visitors : Int
  last_counted_date : Int
  domain : String
  last_updated : String
  daily_history : List (Int × Int)
deriving DecidableEq

/-- The gap-day `while d < today` loop of `cmd_update`.  State:
`(cumulative, daily_history, finalized_days)`; the returned `Bool` records
whether the loop was left by `break` (fetch returned the negative
sentinel), which is what the Python `while ... else` clause tests. -/
def gapLoop (fetch : Int → Int) (today : Int) (cumulative : Int)
    (daily_history : List (Int × Int)) (finalized_days : Nat) (d : Int) :
    Int × List (Int × Int) × Nat × Bool :=
  if h : d < today then
    if fetch d < 0 then
      (cumulative, daily_history, finalized_days, true)
    else
      gapLoop fetch today (cumulative + fetch d)
        (insertH daily_history d (fetch d)) (finalized_days + 1) (d + 1)
  else
    (cumulative, daily_history, finalized_days, false)
termination_by (today - d).toNat
decreasing_by omega

/-- `cmd_update(domain)` minus the I/O: `prev` is the loaded state, `today`
the current date, `now` the `datetime.now().isoformat()` stamp, `fetch` the
analytics oracle for this run; the result is the record passed to
`save_data`. -/
def cmd_update (fetch : Int → Int) (domain : String) (today : Int)
    (now : String) (prev : PrevData) : SavedData :=
  -- cumulative = prev.get('cumulative', 0); last_counted = prev.get('last_counted_date')
  -- First run or migration from old format:
  --   cumulative = max(INITIAL_CUMULATIVE, prev.get('count', 0)); last_counted = today
  let init : Int × Int :=
    match prev.last_counted_date with
    | none => (max INITIAL_CUMULATIVE (prev.count.getD 0), today)
    | some lc => (prev.cumulative.getD 0, lc)
  let last_date := init.2
  -- while d < today: ... else: last_counted = today - 1  (only entered when
  -- last_date < today; the else clause fires iff the loop did not break)
  let gap : Int × List (Int × Int) × Int :=
    if last_date < today then
      let r := gapLoop fetch today init.1 prev.daily_history 0 (last_date + 1)
      (r.1, r.2.1, if r.2.2.2 then last_date else today - 1)
    else
      (init.1, prev.daily_history, last_date)
  -- today_visitors = fetch(today); on failure keep prev.get('today_visitors', 0)
  let tv := fetch today
  let today_visitors := if tv < 0 then prev.today_visitors.getD 0 else tv
  { count := gap.1 + today_visitors
    cumulative := gap.1
    today_visitors := today_visitors
    last_counted_date := gap.2.2
    domain := domain
    last_updated := now
    daily_history := gap.2.1 }

/-- `load_data()` applied to the file written by a previous run: every field
of the saved record is present. -/
def toPrev (s : SavedData) : PrevData :=
  { count := some s.count
    cumulative := some s.cumulative
    today_visitors := some s.today_visitors
    last_counted_date := some s.last_counted_date
    daily_history := s.daily_history }

/-- The days `a, a+1, ..., b-1` (the dates the gap loop visits when started
at `a` and stopped before `b`). -/
def gapDays (a b : Int) : List Int :=
  if h : a < b then a :: gapDays (a + 1) b else []
termination_by (b - a).toNat
decreasing_by omega

/-- Folding the dict insertions the gap loop performs for the days in `l`. -/
def foldInserts (fetch : Int → Int) (h : List (Int × Int)) (l : List Int) :
    List (Int × Int) :=
  l.foldl (fun acc d => insertH acc d (fetch d)) h

/-- `round(x, 1)` on the exact rational value. -/
def round1 (x : ℚ) : ℚ := ((round (10 * x) : ℤ) : ℚ) / 10

/-- The inner closure `avg_for_period(days_back)` of `compute_stats`:
average of the history values with `cutoff <= k < today`, `None` when no
day falls in the window. -/
def avg_for_period (today : Int) (daily_history : List (Int × Int))
    (days_back : Int) : Option ℚ :=
  let cutoff := today - days_back
  let values := (daily_history.filter
      (fun p => decide (cutoff ≤ p.1 ∧ p.1 < today))).map Prod.snd
  if values.isEmpty then none
  else some (round1 ((values.sum : ℚ) / (values.length : ℚ)))

/-- The dict returned by `compute_stats` when the history is nonempty. -/
structure StatsResult where
  avg_7d : Option ℚ
  avg_30d : Option ℚ
  first_date : Int
  last_date : Int
  total_days_tracked : Nat
  avg_all_time : Option ℚ
  max_day : Option Int
  min_day : Option Int
deriving DecidableEq

/-- `compute_stats(daily_history)`: `{}` (here `none`) on an empty history,
otherwise the statistics record.  `today = date.today()` is the evaluation
date.  `sorted(...)` is modelled by insertion sort (the keys are distinct,
so any sort gives the same list). -/
def compute_stats (today : Int) (daily_history : List (Int × Int)) :
    Option StatsResult :=
  if daily_history.isEmpty then none
  else
    let sorted_days := (daily_history.map Prod.fst).insertionSort (· ≤ ·)
    let all_values := daily_history.map Prod.snd
    some
      { avg_7d := avg_for_period today daily_history 7
        avg_30d := avg_for_period today daily_history 30
        first_date := sorted_days.headD 0
        last_date := sorted_days.getLastD 0
        total_days_tracked := sorted_days.length
        avg_all_time :=
          if all_values.isEmpty then none
          else some (round1 ((all_values.sum : ℚ) / (all_values.length : ℚ)))
        max_day := all_values.max?
        min_day := all_values.min? }

/-- A fetch oracle with every negative (failure) result replaced by the
canonical error sentinel `-1` that `fetch_sa_visitors_for_date` returns on a
transport or decode error. -/
def sanitize (fetch : Int → Int) : Int → Int :=
  fun d => if fetch d < 0 then -1 else fetch d

/-- The fields of a statistics record that do not mention the windowed
(7-day / 30-day) averages. -/
def nonWindowed (s : StatsResult) :
    Int × Int × Nat × Option ℚ × Option Int × Option Int :=
  (s.first_date, s.last_date, s.total_days_tracked,
   s.avg_all_time, s.max_day, s.min_day)

/-! ### Concrete scenarios

Day numbers below are offsets from `2026-02-08` (`DEPLOY_DATE`), so
`0 = 2026-02-08`, `1 = 2026-02-09`, `2 = 2026-02-10`, `3 = 2026-02-11`. -/

/-- Oracle for the §8 concrete scenario: gap days `2026-02-08..10` would
return 10, 15, 20; today (`2026-02-11`) returns 5; anything else fails. -/
def fetchC1 : Int → Int := fun d =>
  if d = 0 then 10 else if d = 1 then 15 else if d = 2 then 20
  else if d = 3 then 5 else -1

/-- The single run of the §8 scenario: no persisted file (`{}`) and
`today = 3` (= `2026-02-11`). -/
def outC1 : SavedData := cmd_update fetchC1 "example.org" 3 "2026-02-11T12:00:00" {}

/-- Run 0 (first run, `today = 0`): today's fetch returns 3. -/
def fetchC2a : Int → Int := fun d => if d = 0 then 3 else -1

/-- Run 1 (`today = 5`): day 1 returns 10, day 2 fails, today returns 7. -/
def fetchC2b : Int → Int := fun d => if d = 1 then 10 else if d = 5 then 7 else -1

/-- Run 2 (`today = 5` again): every gap day now answers, today returns 9. -/
def fetchC2c : Int → Int := fun d =>
  if d = 1 then 12 else if d = 2 then 20 else if d = 3 then 30
  else if d = 4 then 40 else if d = 5 then 9 else -1

def runC2_0 : SavedData := cmd_update fetchC2a "example.org" 0 "t0" {}

def runC2_1 : SavedData := cmd_update fetchC2b "example.org" 5 "t1" (toPrev runC2_0)

def runC2_2 : SavedData := cmd_update fetchC2c "example.org" 5 "t2" (toPrev runC2_1)

/-- A state whose `last_counted_date` is yesterday relative to `today = 10`. -/
def prevC3 : PrevData :=
  { count := some 205, cumulative := some 200, today_visitors := some 5,
    last_counted_date := some 9, daily_history := [(9, 5)] }

def fetchC3a : Int → Int := fun d => if d = 10 then 5 else -1

def fetchC3b : Int → Int := fun d => if d = 10 then 7 else -1

def runC3_1 : SavedData := cmd_update fetchC3a "example.org" 10 "t1" prevC3

def runC3_2 : SavedData := cmd_update fetchC3b "example.org" 10 "t2" (toPrev runC3_1)

/-- Witness oracle for C4: day 2 fails, every other day succeeds. -/
def fetchC4 : Int → Int := fun d => if d = 2 then -1 else if d = 4 then 6 else 5

def prevC4 : PrevData :=
  { count := some 101, cumulative := some 100, today_visitors := some 1,
    last_counted_date := some 0, daily_history := [] }

/-- Witness oracle for C5: all days succeed (`1 ↦ 4`, `2 ↦ 6`, `3 ↦ 8`). -/
def fetchC5 : Int → Int := fun d =>
  if d = 1 then 4 else if d = 2 then 6 else if d = 3 then 8 else 0

def prevC5 : PrevData :=
  { count := some 51, cumulative := some 50, today_visitors := some 1,
    last_counted_date := some 0, daily_history := [] }

/-- Witness oracle for C6: every fetch fails. -/
def fetchC6 : Int → Int := fun _ => -1

/-- The §8 migration state: a previously displayed `count` of 50000 and no
`last_counted_date`. -/
def prevC6 : PrevData := { count := some 50000 }

def savedC6 : SavedData :=
  { count := 10, cumulative := 7, today_visitors := 3, last_counted_date := 4,
    domain := "example.org", last_updated := "t", daily_history := [] }

/-- Witness oracle for C9: the fetch for `today = 3` fails. -/
def fetchC9 : Int → Int := fun d => if d < 3 then 2 else -1

def prevC9 : PrevData :=
  { count := some 30, cumulative := some 26, today_visitors := some 4,
    last_counted_date := some 2, daily_history := [] }

/-- Witness oracle for C10: a non-sentinel negative answer for `today = 2`. -/
def fetchC10 : Int → Int := fun d => if d = 1 then 5 else -7

def prevC10 : PrevData :=
  { count := some 20, cumulative := some 18, today_visitors := some 2,
    last_counted_date := some 0, daily_history := [] }

/-! ### Helper lemmas about the embedded operations -/

theorem gapDays_nil {a b : Int} (h : ¬ a < b) : gapDays a b = [] := by
  rw [gapDays]; simp [h]

theorem gapDays_cons {a b : Int} (h : a < b) :
    gapDays a b = a :: gapDays (a + 1) b := by
  rw [gapDays]; simp [h]

theorem mem_gapDays {a b x : Int} : x ∈ gapDays a b ↔ a ≤ x ∧ x < b := by
  by_cases h : a < b
  · rw [gapDays_cons h, List.mem_cons, mem_gapDays (a := a + 1) (b := b)]
    omega
  · rw [gapDays_nil h]
    simp only [List.not_mem_nil, false_iff]
    omega
termination_by (b - a).toNat
decreasing_by omega

theorem lookupH_insertH_self (h : List (Int × Int)) (k v : Int) :
    lookupH (insertH h k v) k = some v := by
  induction h with
  | nil => simp [insertH, lookupH]
  | cons p rest ih =>
      obtain ⟨k', v'⟩ := p
      by_cases hk : k' = k
      · simp [insertH, lookupH, hk]
      · simp [insertH, lookupH, hk, ih]

theorem lookupH_insertH_ne (h : List (Int × Int)) {k d : Int} (v : Int)
    (hkd : k ≠ d) : lookupH (insertH h k v) d = lookupH h d := by
  induction h with
  | nil => simp [insertH, lookupH, hkd]
  | cons p rest ih =>
      obtain ⟨k', v'⟩ := p
      by_cases hk : k' = k
      · subst hk
        simp [insertH, lookupH, hkd]
      · simp [insertH, lookupH, hk, ih]

theorem lookupH_foldInserts (fetch : Int → Int) (h : List (Int × Int))
    (l : List Int) (d : Int) :
    lookupH (foldInserts fetch h l) d =
      if d ∈ l then some (fetch d) else lookupH h d := by
  induction l generalizing h with
  | nil => simp [foldInserts]
  | cons x l ih =>
      show lookupH (foldInserts fetch (insertH h x (fetch x)) l) d = _
      rw [ih]
      by_cases hl : d ∈ l
      · simp [hl]
      · by_cases hx : x = d
        · subst hx
          simp [hl, lookupH_insertH_self]
        · simp [hl, hx, Ne.symm hx, lookupH_insertH_ne h (fetch x) hx]

theorem foldInserts_congr {f g : Int → Int} (h : List (Int × Int))
    {l : List Int} (hfg : ∀ x ∈ l, f x = g x) :
    foldInserts f h l = foldInserts g h l := by
  induction l generalizing h with
  | nil => rfl
  | cons x l ih =>
      show foldInserts f (insertH h x (f x)) l = foldInserts g (insertH h x (g x)) l
      rw [hfg x (List.mem_cons_self x l)]
      exact ih _ (fun y hy => hfg y (List.mem_cons_of_mem x hy))

theorem gapLoop_stop (f : Int → Int) {today : Int} (c : Int)
    (h : List (Int × Int)) (n : Nat) {d : Int} (hd : ¬ d < today) :
    gapLoop f today c h n d = (c, h, n, false) := by
  rw [gapLoop]; simp [hd]

/-- When every day in `[d, today)` fetches successfully, the gap loop adds
all their values, inserts them all, and terminates without `break`. -/
theorem gapLoop_all_ok (f : Int → Int) {today : Int} (c : Int)
    (h : List (Int × Int)) (n : Nat) {d : Int}
    (hok : ∀ x, d ≤ x → x < today → 0 ≤ f x) :
    gapLoop f today c h n d =
      (c + ((gapDays d today).map f).sum,
       foldInserts f h (gapDays d today),
       n + (gapDays d today).length, false) := by
  by_cases hd : d < today
  · rw [gapLoop]
    have hv : ¬ f d < 0 := not_lt.mpr (hok d le_rfl hd)
    rw [dif_pos hd, if_neg hv]
    rw [gapLoop_all_ok f (c + f d) (insertH h d (f d)) (n + 1)
      (fun x hx1 hx2 => hok x (by omega) hx2)]
    rw [gapDays_cons hd]
    simp only [List.map_cons, List.sum_cons, List.length_cons, Prod.mk.injEq]
    exact ⟨by ring, rfl, by omega, trivial⟩
  · rw [gapLoop_stop f c h n hd, gapDays_nil hd]
    simp [foldInserts]
termination_by (today - d).toNat
decreasing_by omega

/-- When `dfail` is the first failing day at or after `d`, the gap loop
adds exactly the values of the days in `[d, dfail)`, inserts them, and
stops with `break` (so the `while ... else` clause does not fire). -/
theorem gapLoop_first_fail (f : Int → Int) {today : Int} (c : Int)
    (h : List (Int × Int)) (n : Nat) {d dfail : Int}
    (hd0 : d ≤ dfail) (hft : dfail < today) (hfail : f dfail < 0)
    (hok : ∀ x, d ≤ x → x < dfail → 0 ≤ f x) :
    gapLoop f today c h n d =
      (c + ((gapDays d dfail).map f).sum,
       foldInserts f h (gapDays d dfail),
       n + (gapDays d dfail).length, true) := by
  rw [gapLoop]
  rw [dif_pos (by omega : d < today)]
  by_cases hde : d = dfail
  · subst hde
    rw [if_pos hfail, gapDays_nil (by omega)]
    simp [foldInserts]
  · have hv : ¬ f d < 0 := not_lt.mpr (hok d le_rfl (by omega))
    rw [if_neg hv]
    rw [gapLoop_first_fail f (c + f d) (insertH h d (f d)) (n + 1)
      (by omega) hft hfail (fun x hx1 hx2 => hok x (by omega) hx2)]
    rw [gapDays_cons (by omega : d < dfail)]
    simp only [List.map_cons, List.sum_cons, List.length_cons, Prod.mk.injEq]
    exact ⟨by ring, rfl, by omega, trivial⟩
termination_by (dfail - d).toNat
decreasing_by omega

/-- The gap loop never decreases the cumulative total. -/
theorem gapLoop_mono (f : Int → Int) {today : Int} (c : Int)
    (h : List (Int × Int)) (n : Nat) (d : Int) :
    c ≤ (gapLoop f today c h n d).1 := by
  rw [gapLoop]
  by_cases hd : d < today
  · rw [dif_pos hd]
    by_cases hv : f d < 0
    · rw [if_pos hv]
    · rw [if_neg hv]
      calc c ≤ c + f d := by omega
        _ ≤ _ := gapLoop_mono f (c + f d) (insertH h d (f d)) (n + 1) (d + 1)
  · rw [dif_neg hd]
termination_by (today - d).toNat
decreasing_by omega

/-- The gap loop only ever queries dates strictly before `today`: oracles
that agree there produce the same loop result. -/
theorem gapLoop_congr {f g : Int → Int} {today : Int} (c : Int)
    (h : List (Int × Int)) (n : Nat) (d : Int)
    (hfg : ∀ x, x < today → f x = g x) :
    gapLoop f today c h n d = gapLoop g today c h n d := by
  conv_lhs => rw [gapLoop]
  conv_rhs => rw [gapLoop]
  by_cases hd : d < today
  · rw [dif_pos hd, dif_pos hd, hfg d hd]
    by_cases hv : g d < 0
    · rw [if_pos hv, if_pos hv]
    · rw [if_neg hv, if_neg hv]
      exact gapLoop_congr (c + g d) (insertH h d (g d)) (n + 1) (d + 1) hfg
  · rw [dif_neg hd, dif_neg hd]
termination_by (today - d).toNat
decreasing_by omega

/-- Replacing every negative oracle answer by the canonical `-1` sentinel
does not change the gap loop: only the sign of a failure is inspected. -/
theorem gapLoop_sanitize (f : Int → Int) (today c : Int)
    (h : List (Int × Int)) (n : Nat) (d : Int) :
    gapLoop f today c h n d = gapLoop (sanitize f) today c h n d := by
  conv_lhs => rw [gapLoop]
  conv_rhs => rw [gapLoop]
  by_cases hd : d < today
  · rw [dif_pos hd, dif_pos hd]
    by_cases hv : f d < 0
    · rw [if_pos hv, if_pos (by simp [sanitize, hv] : sanitize f d < 0)]
    · have hs : sanitize f d = f d := by simp [sanitize, hv]
      rw [if_neg hv, hs, if_neg hv]
      exact gapLoop_sanitize f today (c + f d) (insertH h d (f d)) (n + 1) (d + 1)
  · rw [dif_neg hd, dif_neg hd]
termination_by (today - d).toNat
decreasing_by omega

/-- The displayed total is always `cumulative + today_visitors`. -/
theorem cmd_update_count (f : Int → Int) (domain : String) (today : Int)
    (now : String) (prev : PrevData) :
    (cmd_update f domain today now prev).count =
      (cmd_update f domain today now prev).cumulative +
        (cmd_update f domain today now prev).today_visitors := rfl

/-- First-run / migration branch: no `last_counted_date` in the loaded
state.  `last_counted` is set to *today*, so the gap loop body never runs. -/
theorem cmd_update_none_eq (f : Int → Int) (domain : String) (today : Int)
    (now : String) (prev : PrevData) (h : prev.last_counted_date = none) :
    cmd_update f domain today now prev =
      { count := max INITIAL_CUMULATIVE (prev.count.getD 0) +
          (if f today < 0 then prev.today_visitors.getD 0 else f today),
        cumulative := max INITIAL_CUMULATIVE (prev.count.getD 0),
        today_visitors := if f today < 0 then prev.today_visitors.getD 0 else f today,
        last_counted_date := today,
        domain := domain, last_updated := now,
        daily_history := prev.daily_history } := by
  simp [cmd_update, h]

/-- Unfolding `cmd_update` when a prior `last_counted_date = lc < today`
exists: the run is the gap loop started at `lc + 1` followed by the today
fetch. -/
theorem cmd_update_some_eq (f : Int → Int) (domain : String) (today : Int)
    (now : String) (prev : PrevData) {lc : Int}
    (h : prev.last_counted_date = some lc) (hlt : lc < today) :
    cmd_update f domain today now prev =
      { count := (gapLoop f today (prev.cumulative.getD 0) prev.daily_history 0 (lc + 1)).1 +
          (if f today < 0 then prev.today_visitors.getD 0 else f today),
        cumulative := (gapLoop f today (prev.cumulative.getD 0) prev.daily_history 0 (lc + 1)).1,
        today_visitors := if f today < 0 then prev.today_visitors.getD 0 else f today,
        last_counted_date :=
          if (gapLoop f today (prev.cumulative.getD 0) prev.daily_history 0 (lc + 1)).2.2.2
          then lc else today - 1,
        domain := domain, last_updated := now,
        daily_history := (gapLoop f today (prev.cumulative.getD 0) prev.daily_history 0 (lc + 1)).2.1 } := by
  simp [cmd_update, h, hlt]

/-- Unfolding `cmd_update` when `last_counted_date = lc ≥ today`: the gap
block is skipped entirely. -/
theorem cmd_update_no_gap_eq (f : Int → Int) (domain : String) (today : Int)
    (now : String) (prev : PrevData) {lc : Int}
    (h : prev.last_counted_date = some lc) (hge : ¬ lc < today) :
    cmd_update f domain today now prev =
      { count := prev.cumulative.getD 0 +
          (if f today < 0 then prev.today_visitors.getD 0 else f today),
        cumulative := prev.cumulative.getD 0,
        today_visitors := if f today < 0 then prev.today_visitors.getD 0 else f today,
        last_counted_date := lc,
        domain := domain, last_updated := now,
        daily_history := prev.daily_history } := by
  simp [cmd_update, h, hge]

/-- When `last_counted_date` is yesterday or later, a run leaves
`cumulative`, `daily_history` and `last_counted_date` untouched and only
refreshes the today fields. -/
theorem cmd_update_frame (f : Int → Int) (domain : String) (today : Int)
    (now : String) (prev : PrevData) {lc : Int}
    (h : prev.last_counted_date = some lc) (hge : today - 1 ≤ lc) :
    cmd_update f domain today now prev =
      { count := prev.cumulative.getD 0 +
          (if f today < 0 then prev.today_visitors.getD 0 else f today),
        cumulative := prev.cumulative.getD 0,
        today_visitors := if f today < 0 then prev.today_visitors.getD 0 else f today,
        last_counted_date := lc,
        domain := domain, last_updated := now,
        daily_history := prev.daily_history } := by
  by_cases hlt : lc < today
  · have hlc : lc = today - 1 := by omega
    rw [cmd_update_some_eq f domain today now prev h hlt]
    rw [gapLoop_stop f (prev.cumulative.getD 0) prev.daily_history 0
      (show ¬ lc + 1 < today by omega)]
    simp [hlc]
  · exact cmd_update_no_gap_eq f domain today now prev h hlt

/-- Full characterization of a run whose gap loop hits its first failure at
`dfail`: the days in `(lc, dfail)` are finalized, the loop breaks, and
`last_counted_date` stays at `lc`. -/
theorem cmd_update_first_fail_eq (f : Int → Int) (domain : String) (today : Int)
    (now : String) (prev : PrevData) {lc dfail : Int}
    (hlc : prev.last_counted_date = some lc) (h1 : lc < dfail) (h2 : dfail < today)
    (hfail : f dfail < 0) (hok : ∀ x, lc < x → x < dfail → 0 ≤ f x) :
    cmd_update f domain today now prev =
      { count := prev.cumulative.getD 0 + ((gapDays (lc + 1) dfail).map f).sum +
          (if f today < 0 then prev.today_visitors.getD 0 else f today),
        cumulative := prev.cumulative.getD 0 + ((gapDays (lc + 1) dfail).map f).sum,
        today_visitors := if f today < 0 then prev.today_visitors.getD 0 else f today,
        last_counted_date := lc,
        domain := domain, last_updated := now,
        daily_history := foldInserts f prev.daily_history (gapDays (lc + 1) dfail) } := by
  rw [cmd_update_some_eq f domain today now prev hlc (by omega)]
  rw [gapLoop_first_fail f (prev.cumulative.getD 0) prev.daily_history 0
    (show lc + 1 ≤ dfail by omega) h2 hfail
    (fun x hx1 hx2 => hok x (by omega) hx2)]
  simp

/-- Full characterization of a run whose gap loop succeeds on every gap
day: all of `(lc, today)` is finalized and `last_counted_date` advances to
yesterday. -/
theorem cmd_update_all_ok_eq (f : Int → Int) (domain : String) (today : Int)
    (now : String) (prev : PrevData) {lc : Int}
    (hlc : prev.last_counted_date = some lc) (hlt : lc < today)
    (hok : ∀ x, lc < x → x < today → 0 ≤ f x) :
    cmd_update f domain today now prev =
      { count := prev.cumulative.getD 0 + ((gapDays (lc + 1) today).map f).sum +
          (if f today < 0 then prev.today_visitors.getD 0 else f today),
        cumulative := prev.cumulative.getD 0 + ((gapDays (lc + 1) today).map f).sum,
        today_visitors := if f today < 0 then prev.today_visitors.getD 0 else f today,
        last_counted_date := today - 1,
        domain := domain, last_updated := now,
        daily_history := foldInserts f prev.daily_history (gapDays (lc + 1) today) } := by
  rw [cmd_update_some_eq f domain today now prev hlc hlt]
  rw [gapLoop_all_ok f (prev.cumulative.getD 0) prev.daily_history 0
    (fun x hx1 hx2 => hok x (by omega) hx2)]
  simp

/-! ### Claim theorems -/

/-- C1 (counterexample): in the §8 first-run scenario (no persisted file,
`today = 3` = 2026-02-11, oracle answering 10/15/20 for days 0/1/2 and 5
for today) the run does NOT produce `cumulative = 23914`, `count = 23919`,
`last_counted_date = 2` (= 2026-02-10): because the first run initializes
`last_counted` to *today*, no gap day is ever fetched, and the run yields
`cumulative = 23869`, `count = 23874`, `last_counted_date = 3`. -/
theorem C1_counterexample :
    outC1.cumulative = 23869 ∧ outC1.today_visitors = 5 ∧
    outC1.count = 23874 ∧ outC1.last_counted_date = 3 ∧
    outC1.daily_history = [] ∧
    ¬ (outC1.cumulative = 23914 ∧ outC1.today_visitors = 5 ∧
       outC1.count = 23919 ∧ outC1.last_counted_date = 2) := by
  simp [outC1, cmd_update, fetchC1, INITIAL_CUMULATIVE]

/-- C1 (amended): in the concrete first-run scenario — baseline constant
23869, no persisted state file, today = 2026-02-11 with the today fetch
returning 5 — running update once performs no gap-day fetch (the first run
initializes `last_counted_date` to today) and yields a persisted state with
`cumulative = 23869`, `today_visitors = 5`, `count = 23874`,
`last_counted_date = "2026-02-11"` and an empty `daily_history`. -/
theorem C1_amended_first_run :
    outC1 =
      { count := 23874, cumulative := 23869, today_visitors := 5,
        last_counted_date := 3, domain := "example.org",
        last_updated := "2026-02-11T12:00:00", daily_history := [] } := by
  simp [outC1, cmd_update, fetchC1, INITIAL_CUMULATIVE]

/-- C2 (code bug exhibit): starting from an empty state, run 1 finalizes
day 1 with value 10 into `daily_history` but aborts on day 2 without
advancing `last_counted_date` past 0; the following run 2 therefore
re-fetches day 1 (already present in `daily_history`), overwrites its
stored value with the new answer 12, and adds it to `cumulative` a second
time (`23981 = 23869 + 10 + (12 + 20 + 30 + 40)`: day 1 is counted both as
10 and as 12). -/
theorem C2_refetch_bug :
    runC2_1.last_counted_date = 0 ∧
    lookupH runC2_1.daily_history 1 = some 10 ∧
    runC2_1.cumulative = 23879 ∧
    lookupH runC2_2.daily_history 1 = some 12 ∧
    runC2_2.cumulative = 23981 := by
  simp [runC2_0, runC2_1, runC2_2, toPrev, cmd_update, gapLoop, insertH,
    lookupH, fetchC2a, fetchC2b, fetchC2c, INITIAL_CUMULATIVE]

/-- C3 (counterexample): with `last_counted_date` = yesterday and no new
gap days, two runs on the same day leave `cumulative` and `daily_history`
unchanged, but the persisted `count` field — which is neither
`today_visitors` nor `last_updated` — differs between the two outputs
(205 vs 207), so it is false that only `today_visitors` and `last_updated`
may differ. -/
theorem C3_counterexample :
    runC3_1.cumulative = runC3_2.cumulative ∧
    runC3_1.daily_history = runC3_2.daily_history ∧
    runC3_1.count = 205 ∧ runC3_2.count = 207 ∧
    ¬ runC3_1.count = runC3_2.count := by
  simp [runC3_1, runC3_2, prevC3, toPrev, cmd_update, gapLoop,
    fetchC3a, fetchC3b]

/-- C3 (amended): for every persisted state whose `last_counted_date` is
yesterday or today, running update a second time on the same calendar day
leaves the persisted `cumulative`, `daily_history`, `last_counted_date`
and `domain` equal to what the first run wrote; only `today_visitors`,
`last_updated` and the derived `count = cumulative + today_visitors` may
differ between the two runs' outputs. -/
theorem C3_amended_frame (f₁ f₂ : Int → Int) (domain : String) (today : Int)
    (now₁ now₂ : String) (prev : PrevData) (lc : Int)
    (hlc : prev.last_counted_date = some lc)
    (hy : lc = today - 1 ∨ lc = today) :
    (cmd_update f₂ domain today now₂
        (toPrev (cmd_update f₁ domain today now₁ prev))).cumulative =
      (cmd_update f₁ domain today now₁ prev).cumulative ∧
    (cmd_update f₂ domain today now₂
        (toPrev (cmd_update f₁ domain today now₁ prev))).daily_history =
      (cmd_update f₁ domain today now₁ prev).daily_history ∧
    (cmd_update f₂ domain today now₂
        (toPrev (cmd_update f₁ domain today now₁ prev))).last_counted_date =
      (cmd_update f₁ domain today now₁ prev).last_counted_date ∧
    (cmd_update f₂ domain today now₂
        (toPrev (cmd_update f₁ domain today now₁ prev))).domain =
      (cmd_update f₁ domain today now₁ prev).domain ∧
    (cmd_update f₂ domain today now₂
        (toPrev (cmd_update f₁ domain today now₁ prev))).count =
      (cmd_update f₂ domain today now₂
        (toPrev (cmd_update f₁ domain today now₁ prev))).cumulative +
      (cmd_update f₂ domain today now₂
        (toPrev (cmd_update f₁ domain today now₁ prev))).today_visitors := by
  have hge : today - 1 ≤ lc := by omega
  have h₁ : (cmd_update f₁ domain today now₁ prev).last_counted_date = lc := by
    rw [cmd_update_frame f₁ domain today now₁ prev hlc hge]
  have h₂ := cmd_update_frame f₂ domain today now₂
    (toPrev (cmd_update f₁ domain today now₁ prev))
    (show (toPrev (cmd_update f₁ domain today now₁ prev)).last_counted_date = some lc
      by simp [toPrev, h₁]) hge
  rw [h₂, cmd_update_frame f₁ domain today now₁ prev hlc hge]
  simp [toPrev]

/-- C3 (witness for the amended theorem): the concrete two-run scenario at
`today = 10` from `prevC3`. -/
theorem C3_amended_frame_witness :
    runC3_2.cumulative = runC3_1.cumulative ∧
    runC3_2.daily_history = runC3_1.daily_history ∧
    runC3_2.last_counted_date = runC3_1.last_counted_date := by
  have h := C3_amended_frame fetchC3a fetchC3b "example.org" 10 "t1" "t2"
    prevC3 9 rfl (Or.inl (by decide))
  exact ⟨h.1, h.2.1, h.2.2.1⟩

/-- C4: in every run whose fetch for some gap day `dfail` returns the
failure sentinel (the first failure of the run), (i) `last_counted_date`
stays at `lc`, hence does not advance past the last gap day that succeeded;
(ii) the gap days `(lc, dfail)` that succeeded are folded into `cumulative`
and `daily_history`; (iii) the today fetch is still performed and the full
record persisted (`count = cumulative + today_visitors`); (iv) no gap day
after `dfail` is fetched: any oracle agreeing with `f` up to `dfail` and at
`today` yields the identical persisted record. -/
theorem C4_gap_failure (f : Int → Int) (domain : String) (today : Int)
    (now : String) (prev : PrevData) (lc dfail : Int)
    (hlc : prev.last_counted_date = some lc)
    (h1 : lc < dfail) (h2 : dfail < today) (hfail : f dfail < 0)
    (hok : ∀ x, lc < x → x < dfail → 0 ≤ f x) :
    (cmd_update f domain today now prev).last_counted_date = lc ∧
    (cmd_update f domain today now prev).cumulative =
      prev.cumulative.getD 0 + ((gapDays (lc + 1) dfail).map f).sum ∧
    (cmd_update f domain today now prev).daily_history =
      foldInserts f prev.daily_history (gapDays (lc + 1) dfail) ∧
    (cmd_update f domain today now prev).today_visitors =
      (if f today < 0 then prev.today_visitors.getD 0 else f today) ∧
    (cmd_update f domain today now prev).count =
      (cmd_update f domain today now prev).cumulative +
        (cmd_update f domain today now prev).today_visitors ∧
    ∀ g : Int → Int, (∀ x, x ≤ dfail → g x = f x) → g today = f today →
      cmd_update g domain today now prev = cmd_update f domain today now prev := by
  have key : ∀ g : Int → Int, (∀ x, x ≤ dfail → g x = f x) → g today = f today →
      cmd_update g domain today now prev =
        { count := prev.cumulative.getD 0 + ((gapDays (lc + 1) dfail).map f).sum +
            (if f today < 0 then prev.today_visitors.getD 0 else f today),
          cumulative := prev.cumulative.getD 0 + ((gapDays (lc + 1) dfail).map f).sum,
          today_visitors := if f today < 0 then prev.today_visitors.getD 0 else f today,
          last_counted_date := lc,
          domain := domain, last_updated := now,
          daily_history := foldInserts f prev.daily_history (gapDays (lc + 1) dfail) } := by
    intro g hg hgt
    have hmap : (gapDays (lc + 1) dfail).map g = (gapDays (lc + 1) dfail).map f :=
      List.map_congr_left (fun x hx => hg x (by have := mem_gapDays.mp hx; omega))
    have hfold : foldInserts g prev.daily_history (gapDays (lc + 1) dfail) =
        foldInserts f prev.daily_history (gapDays (lc + 1) dfail) :=
      foldInserts_congr prev.daily_history
        (fun x hx => hg x (by have := mem_gapDays.mp hx; omega))
    rw [cmd_update_first_fail_eq g domain today now prev hlc h1 h2
      (by rw [hg dfail le_rfl]; exact hfail)
      (fun x hx1 hx2 => by rw [hg x (by omega)]; exact hok x hx1 hx2)]
    rw [hmap, hfold, hgt]
  have hf := key f (fun x _ => rfl) rfl
  rw [hf]
  refine ⟨rfl, rfl, rfl, rfl, rfl, ?_⟩
  intro g hg hgt
  rw [key g hg hgt]

/-- C4 (witness): `today = 4`, `last_counted_date = 0`, day 1 succeeds
with 5, day 2 fails; `last_counted_date` stays 0 and `cumulative` becomes
`100 + 5`. -/
theorem C4_gap_failure_witness :
    (cmd_update fetchC4 "example.org" 4 "t" prevC4).last_counted_date = 0 ∧
    (cmd_update fetchC4 "example.org" 4 "t" prevC4).cumulative = 105 := by
  have h := C4_gap_failure fetchC4 "example.org" 4 "t" prevC4 0 2 rfl
    (by decide) (by decide) (by decide)
    (fun x hx1 hx2 => by
      have hx : x = 1 := by omega
      rw [hx]; decide)
  refine ⟨h.1, ?_⟩
  rw [h.2.1]
  simp [gapDays, fetchC4, prevC4]

/-- C5: for every run with a prior `last_counted_date = lc` strictly before
yesterday, if every gap day in `(lc, today)` fetches a non-negative value
then `cumulative` grows by exactly the sum of those values, every gap day
is recorded in `daily_history` with its fetched value, and
`last_counted_date` advances to yesterday. -/
theorem C5_all_gap_days_ok (f : Int → Int) (domain : String) (today : Int)
    (now : String) (prev : PrevData) (lc : Int)
    (hlc : prev.last_counted_date = some lc) (hgap : lc + 1 < today)
    (hok : ∀ x, lc < x → x < today → 0 ≤ f x) :
    (cmd_update f domain today now prev).cumulative =
      prev.cumulative.getD 0 + ((gapDays (lc + 1) today).map f).sum ∧
    (∀ d, lc < d → d < today →
      lookupH (cmd_update f domain today now prev).daily_history d = some (f d)) ∧
    (cmd_update f domain today now prev).last_counted_date = today - 1 := by
  rw [cmd_update_all_ok_eq f domain today now prev hlc (by omega) hok]
  refine ⟨rfl, ?_, rfl⟩
  intro d hd1 hd2
  show lookupH (foldInserts f prev.daily_history (gapDays (lc + 1) today)) d = some (f d)
  rw [lookupH_foldInserts]
  rw [if_pos (mem_gapDays.mpr ⟨by omega, hd2⟩)]

/-- C5 (witness): `today = 3`, `last_counted_date = 0`, gap days 1 and 2
return 4 and 6; `cumulative` becomes 60, day 1 is recorded as 4, and
`last_counted_date` becomes 2. -/
theorem C5_all_gap_days_ok_witness :
    (cmd_update fetchC5 "example.org" 3 "t" prevC5).cumulative = 60 ∧
    lookupH (cmd_update fetchC5 "example.org" 3 "t" prevC5).daily_history 1 = some 4 ∧
    (cmd_update fetchC5 "example.org" 3 "t" prevC5).last_counted_date = 2 := by
  have h := C5_all_gap_days_ok fetchC5 "example.org" 3 "t" prevC5 0 rfl
    (by decide)
    (fun x hx1 hx2 => by
      have hx : x = 1 ∨ x = 2 := by omega
      rcases hx with hx | hx <;> (rw [hx]; decide))
  refine ⟨?_, ?_, ?_⟩
  · rw [h.1]; simp [gapDays, fetchC5, prevC5]
  · have := h.2.1 1 (by decide) (by decide)
    rw [this]; simp [fetchC5]
  · have := h.2.2
    simpa using this

/-- C6: (i) from any previously saved state, the next run never decreases
`cumulative` (the loop only adds fetches it has checked to be
non-negative); (ii) on a first run (no `last_counted_date`) `cumulative`
is initialized to `max INITIAL_CUMULATIVE (previously displayed count)`;
(iii) hence in the migration scenario with a previously displayed count of
50000 the resulting `cumulative` is at least 50000. -/
theorem C6_cumulative_monotone (f : Int → Int) (domain : String) (today : Int)
    (now : String) :
    (∀ r : SavedData,
      r.cumulative ≤ (cmd_update f domain today now (toPrev r)).cumulative) ∧
    (∀ prev : PrevData, prev.last_counted_date = none →
      (cmd_update f domain today now prev).cumulative =
        max INITIAL_CUMULATIVE (prev.count.getD 0)) ∧
    (∀ prev : PrevData, prev.last_counted_date = none → prev.count = some 50000 →
      50000 ≤ (cmd_update f domain today now prev).cumulative) := by
  have hnone : ∀ prev : PrevData, prev.last_counted_date = none →
      (cmd_update f domain today now prev).cumulative =
        max INITIAL_CUMULATIVE (prev.count.getD 0) := by
    intro prev h
    rw [cmd_update_none_eq f domain today now prev h]
  refine ⟨?_, hnone, ?_⟩
  · intro r
    have hlc : (toPrev r).last_counted_date = some r.last_counted_date := rfl
    by_cases hlt : r.last_counted_date < today
    · rw [cmd_update_some_eq f domain today now (toPrev r) hlc hlt]
      have hm := @gapLoop_mono f today ((toPrev r).cumulative.getD 0)
        (toPrev r).daily_history 0 (r.last_counted_date + 1)
      simpa [toPrev] using hm
    · rw [cmd_update_no_gap_eq f domain today now (toPrev r) hlc hlt]
      simp [toPrev]
  · intro prev h hc
    rw [hnone prev h, hc]
    exact le_max_right INITIAL_CUMULATIVE (50000 : Int)

/-- C6 (witness): the §8 migration state (`count = 50000`, no
`last_counted_date`) ends with `cumulative ≥ 50000` even when every fetch
fails, and a next run from a saved state with `cumulative = 7` does not
regress. -/
theorem C6_cumulative_monotone_witness :
    50000 ≤ (cmd_update fetchC6 "example.org" 5 "t" prevC6).cumulative ∧
    7 ≤ (cmd_update fetchC6 "example.org" 5 "t" (toPrev savedC6)).cumulative := by
  exact ⟨(C6_cumulative_monotone fetchC6 "example.org" 5 "t").2.2 prevC6 rfl rfl,
         (C6_cumulative_monotone fetchC6 "example.org" 5 "t").1 savedC6⟩

/-- Rounding an integer value to one decimal returns it unchanged. -/
theorem round1_intCast (v : Int) : round1 ((v : Int) : ℚ) = ((v : Int) : ℚ) := by
  unfold round1
  have h : (10 : ℚ) * ((v : Int) : ℚ) = ((10 * v : Int) : ℚ) := by push_cast; ring
  rw [h, round_intCast]
  push_cast
  ring

/-- A history whose only entry is yesterday averages to that entry's value
for any window of at least one day. -/
theorem avg_for_period_yesterday (today v db : Int) (hdb : 1 ≤ db) :
    avg_for_period today [(today - 1, v)] db = some ((v : Int) : ℚ) := by
  have hfil : List.filter (fun p => decide (today - db ≤ p.1 ∧ p.1 < today))
      [(today - 1, v)] = [(today - 1, v)] := by
    rw [List.filter_cons_of_pos, List.filter_nil]
    simp only [decide_eq_true_eq]
    exact ⟨by omega, by omega⟩
  simp only [avg_for_period, hfil]
  simp [round1_intCast]

/-- A history whose only entry is today itself (excluded from every
window) has no windowed average. -/
theorem avg_for_period_today_only (today v db : Int) :
    avg_for_period today [(today, v)] db = none := by
  simp [avg_for_period]

/-- C7: `compute_stats` on an empty history returns the empty result; a
windowed average over a window containing no history day strictly before
today is `None` (not zero); a history whose only entry is dated yesterday
has `avg_7d = avg_30d =` that value; a history whose only entry is dated
today has `avg_7d = avg_30d = None`. -/
theorem C7_stats_behaviour (today : Int) :
    compute_stats today [] = none ∧
    (∀ (daily_history : List (Int × Int)) (days_back : Int),
      (∀ p ∈ daily_history, ¬ (today - days_back ≤ p.1 ∧ p.1 < today)) →
      avg_for_period today daily_history days_back = none) ∧
    (∀ v : Int,
      (compute_stats today [(today - 1, v)]).map (fun s => (s.avg_7d, s.avg_30d)) =
        some (some ((v : Int) : ℚ), some ((v : Int) : ℚ))) ∧
    (∀ v : Int,
      (compute_stats today [(today, v)]).map (fun s => (s.avg_7d, s.avg_30d)) =
        some (none, none)) := by
  refine ⟨by simp [compute_stats], ?_, ?_, ?_⟩
  · intro daily_history days_back hno
    have hfil : daily_history.filter
        (fun p => decide (today - days_back ≤ p.1 ∧ p.1 < today)) = [] := by
      rw [List.filter_eq_nil_iff]
      intro a ha
      simp only [decide_eq_true_eq]
      exact hno a ha
    simp only [avg_for_period, hfil]
    rfl
  · intro v
    simp [compute_stats, avg_for_period_yesterday today v 7 (by omega),
      avg_for_period_yesterday today v 30 (by omega)]
  · intro v
    simp [compute_stats, avg_for_period_today_only]

/-- C7 (witness): concrete instances at `today = 10`. -/
theorem C7_stats_behaviour_witness :
    avg_for_period 10 [(10, 5)] 7 = none ∧
    (compute_stats 10 [(9, 4)]).map (fun s => (s.avg_7d, s.avg_30d)) =
      some (some (4 : ℚ), some (4 : ℚ)) ∧
    (compute_stats 10 [(10, 6)]).map (fun s => (s.avg_7d, s.avg_30d)) =
      some (none, none) := by
  refine ⟨(C7_stats_behaviour 10).2.1 [(10, 5)] 7 ?_, ?_, ?_⟩
  · intro p hp
    simp only [List.mem_singleton] at hp
    rw [hp]
    decide
  · have h := (C7_stats_behaviour 10).2.2.1 4
    simpa using h
  · have h := (C7_stats_behaviour 10).2.2.2 6
    simpa using h

/-- C8 (counterexample): `compute_stats` is NOT independent of the
evaluation date: the same single-day history `[(0, 10)]` has
`avg_7d = 10.0` when evaluated the next day (`today = 1`) but `avg_7d =
None` when evaluated eight days later (`today = 8`), so the two results
differ. -/
theorem C8_counterexample :
    (compute_stats 1 [(0, 10)]).map StatsResult.avg_7d = some (some (10 : ℚ)) ∧
    (compute_stats 8 [(0, 10)]).map StatsResult.avg_7d = some none ∧
    compute_stats 1 [(0, 10)] ≠ compute_stats 8 [(0, 10)] := by
  have h1 : (compute_stats 1 [(0, 10)]).map StatsResult.avg_7d = some (some (10 : ℚ)) := by
    simp [compute_stats, avg_for_period, round1]
    rw [round_eq]
    norm_num
  have h2 : (compute_stats 8 [(0, 10)]).map StatsResult.avg_7d = some none := by
    simp [compute_stats, avg_for_period]
  refine ⟨h1, h2, ?_⟩
  intro h
  rw [h, h2] at h1
  simp at h1

/-- C8 (amended): `compute_stats` is a deterministic function of the
history mapping and the evaluation date; every field except the windowed
averages `avg_7d` and `avg_30d` is independent of the evaluation date, so
only those two fields may differ between evaluations on different days. -/
theorem C8_amended_date_dependence (t₁ t₂ : Int)
    (daily_history : List (Int × Int)) :
    (compute_stats t₁ daily_history).map nonWindowed =
      (compute_stats t₂ daily_history).map nonWindowed := by
  by_cases h : daily_history.isEmpty <;> simp [compute_stats, h, nonWindowed]

/-- C9: when the fetch for today fails, the persisted `today_visitors` is
the previous run's value (`prev.today_visitors`, defaulting to 0), and the
failure is invisible to the gap phase: `cumulative`, `daily_history` and
`last_counted_date` equal those of a run whose oracle agrees on all days
before today — the gap-day progress made earlier in the run is persisted. -/
theorem C9_today_fetch_failure (f g : Int → Int) (domain : String)
    (today : Int) (now : String) (prev : PrevData)
    (hf : f today < 0) (hagree : ∀ x, x < today → f x = g x) :
    (cmd_update f domain today now prev).today_visitors =
      prev.today_visitors.getD 0 ∧
    (cmd_update f domain today now prev).cumulative =
      (cmd_update g domain today now prev).cumulative ∧
    (cmd_update f domain today now prev).daily_history =
      (cmd_update g domain today now prev).daily_history ∧
    (cmd_update f domain today now prev).last_counted_date =
      (cmd_update g domain today now prev).last_counted_date := by
  have hgap : ∀ (c : Int) (h : List (Int × Int)) (n : Nat) (d : Int),
      gapLoop f today c h n d = gapLoop g today c h n d :=
    fun c h n d => gapLoop_congr c h n d hagree
  refine ⟨by simp [cmd_update, hf], ?_, ?_, ?_⟩ <;> simp [cmd_update, hgap]

/-- C9 (witness): at `today = 3` the oracle fails for today and the
persisted `today_visitors` is the previous run's 4, not zero. -/
theorem C9_today_fetch_failure_witness :
    (cmd_update fetchC9 "example.org" 3 "t" prevC9).today_visitors = 4 := by
  rw [(C9_today_fetch_failure fetchC9 fetchC9 "example.org" 3 "t" prevC9
    (by decide) (fun x _ => rfl)).1]
  rfl

/-- C10: any negative fetch result is treated exactly like the `-1` error
sentinel: replacing every negative oracle answer by `-1` (`sanitize`)
yields the identical persisted record; a decoded body with a negative
`visitors` field is returned as that negative number (indistinguishable
from the error sentinel downstream); a negative result for today is
discarded in favour of the previous `today_visitors` (default 0); a
negative result on a gap day leaves `last_counted_date` at its prior
value, aborting the remaining finalization. -/
theorem C10_negative_is_failure (f : Int → Int) (domain : String)
    (today : Int) (now : String) (prev : PrevData) :
    cmd_update f domain today now prev =
      cmd_update (sanitize f) domain today now prev ∧
    (∀ v : Int, fetch_sa_visitors_for_date (FetchOutcome.ok (some v)) = v) ∧
    fetch_sa_visitors_for_date FetchOutcome.error = -1 ∧
    (f today < 0 →
      (cmd_update f domain today now prev).today_visitors =
        prev.today_visitors.getD 0) ∧
    (∀ lc dfail : Int, prev.last_counted_date = some lc → lc < dfail →
      dfail < today → f dfail < 0 → (∀ x, lc < x → x < dfail → 0 ≤ f x) →
      (cmd_update f domain today now prev).last_counted_date = lc) := by
  refine ⟨?_, fun v => rfl, rfl, fun hf => by simp [cmd_update, hf], ?_⟩
  · have hgap : ∀ (c : Int) (h : List (Int × Int)) (n : Nat) (d : Int),
        gapLoop f today c h n d = gapLoop (sanitize f) today c h n d :=
      fun c h n d => gapLoop_sanitize f today c h n d
    by_cases hv : f today < 0
    · have hs : sanitize f today < 0 := by simp [sanitize, hv]
      simp [cmd_update, hgap, hv, hs]
    · have hs : sanitize f today = f today := by simp [sanitize, hv]
      simp [cmd_update, hgap, hv, hs]
  · intro lc dfail hlc h1 h2 hfail hok
    rw [cmd_update_first_fail_eq f domain today now prev hlc h1 h2 hfail hok]

/-- C10 (witness): at `today = 2` the oracle answers `-7` (a negative
non-sentinel value); the run equals the sanitized run and keeps the
previous `today_visitors = 2`. -/
theorem C10_negative_is_failure_witness :
    cmd_update fetchC10 "example.org" 2 "t" prevC10 =
      cmd_update (sanitize fetchC10) "example.org" 2 "t" prevC10 ∧
    (cmd_update fetchC10 "example.org" 2 "t" prevC10).today_visitors = 2 := by
  have h := C10_negative_is_failure fetchC10 "example.org" 2 "t" prevC10
  refine ⟨h.1, ?_⟩
  rw [h.2.2.2.1 (by decide)]
  rfl

end CountVisitors
